import Mathlib

/-
  Verification development for the goguard AI-governance gateway.

  Shallow embedding of the request pipeline and its surrounding state
  machines, translated from the Go sources:
    internal/services/injection/detector.go
    internal/services/pii (in internal/services/llm/client.go part)
    internal/services/policy/engine.go
    internal/services/spending (in internal/services/settings/service.go part)
    internal/services/audit (Logger)
    internal/api/handlers.go (Guard pipeline)

  Modelling conventions:
  - Go float64 values (prices, costs, confidences, spending amounts) are
    modelled as exact rationals; none of the proved properties depends on
    floating-point rounding.
  - Go strings are modelled as Lean strings (sequences of characters); all
    string operations used here act on ASCII data, where byte-level and
    character-level operations agree.
  - Compiled regular expressions (Go regexp package, external to this
    repository) are modelled as abstract match functions carried in the
    structures that hold them in the source.
  - Go map iteration order is unspecified; wherever the source ranges over a
    map, the model takes the iteration sequence as an explicit list
    parameter, and theorems quantify over permutations where relevant.
  - Timestamps (time.Now()) are modelled as explicit Nat parameters; uuid
    generation is an explicit parameter.
-/

namespace GoGuard

/-! ## String helpers (Go strings package operations) -/

/-- Character-list prefix test: `strHasPre p s` is true iff `p` is a prefix
of `s`.  Models Go byte-prefix comparison on ASCII data. -/
def strHasPre : List Char → List Char → Bool
  | [], _ => true
  | _ :: _, [] => false
  | a :: ps, b :: ss => a == b && strHasPre ps ss

/-- Substring containment on character lists; models `strings.Contains`. -/
def subList (p : List Char) : List Char → Bool
  | [] => p.isEmpty
  | c :: ss => strHasPre p (c :: ss) || subList p ss

/-- `strings.Contains(s, sub)` -/
def goContains (s sub : String) : Bool := subList sub.data s.data

/-- `strings.HasPrefix(s, pre)` -/
def goHasPre (s pre : String) : Bool := strHasPre pre.data s.data

/-- `strings.ToLower`, character by character. -/
def goToLower (s : String) : String := ⟨s.data.map Char.toLower⟩

/-- `strings.ToUpper`, character by character. -/
def goToUpper (s : String) : String := ⟨s.data.map Char.toUpper⟩

/-- Decimal digit character of `n % 10`. -/
def decDigitChar (n : Nat) : Char := Char.ofNat (48 + n % 10)

/-- Digits accumulator for `decRepr` (fuel-driven structural recursion). -/
def decReprCore (fuel n : Nat) (acc : List Char) : List Char :=
  match fuel with
  | 0 => acc
  | fuel + 1 =>
    if n < 10 then decDigitChar n :: acc
    else decReprCore fuel (n / 10) (decDigitChar n :: acc)

/-- The usual decimal representation of a natural number, used on the
spec side of the location-format claim. -/
def decRepr (n : Nat) : String := ⟨decReprCore (n + 1) n []⟩

/-! ## Data model (internal/models/types.go) -/

/-- A chat message.  `models.Message`. -/
structure Message where
  role : String
  content : String
deriving Repr, DecidableEq

/-- A single injection detection.  `models.Detection`.  Confidence is a Go
float64, modelled as an exact rational. -/
structure Detection where
  type : String
  pattern : String
  location : String
  confidence : ℚ
  description : String
deriving Repr, DecidableEq

/-- `models.SecurityReport`. -/
structure SecurityReport where
  injectionDetected : Bool
  threatLevel : String
  detections : List Detection
  blockedReason : String
  recommendations : List String
deriving Repr, DecidableEq

/-! ## Injection classifier (internal/services/injection/detector.go) -/

/-- A compiled regular expression from the detector's pattern library.
`src` is the pattern source string (used by `categorizePattern`); `matches`
models `re.FindStringSubmatch(content)` returning a non-empty result.  The
regexp engine is the Go standard library, external to this repository. -/
structure RegexPat where
  src : String
  matchesContent : String → Bool

/-- `injection.Detector`. -/
structure Detector where
  patterns : List RegexPat
  keywordPatterns : List String
  enabled : Bool
  blockOnDetection : Bool

/-- The built-in keyword list compiled in `NewDetector`
(detector.go:90-102). -/
def defaultKeywordPatterns : List String :=
  ["ignore previous",
   "ignore all instructions",
   "disregard your instructions",
   "new instructions:",
   "system prompt:",
   "[system]",
   "<system>",
   "</system>",
   "assistant:",
   "human:",
   "user:"]

/-- `formatLocation` (detector.go:193-195; the identical helper also appears
in the pii package): lowercased role, the literal `_message_`, and the single
character whose code point is `'0' + index` (Go `string(rune('0'+index))`). -/
def formatLocation (index : Nat) (role : String) : String :=
  goToLower role ++ "_message_" ++ String.singleton (Char.ofNat (48 + index))

/-- `categorizePattern` (detector.go:197-215): derive a detection type by
substring inspection of the lowercased pattern source. -/
def categorizePattern (pattern : String) : String :=
  let lowerPattern := goToLower pattern
  if goContains lowerPattern "ignore" || goContains lowerPattern "disregard" then
    "instruction_override"
  else if goContains lowerPattern "you are now" || goContains lowerPattern "act as" then
    "role_manipulation"
  else if goContains lowerPattern "prompt" || goContains lowerPattern "instruction" then
    "prompt_extraction"
  else if goContains lowerPattern "jailbreak" || goContains lowerPattern "bypass" then
    "jailbreak_attempt"
  else if goContains lowerPattern "im_start" || goContains lowerPattern "inst" then
    "delimiter_injection"
  else if goContains lowerPattern "send" || goContains lowerPattern "exfiltrate" then
    "data_exfiltration"
  else "unknown"

/-- `hasSuspiciousSequences` (detector.go:217-232): zero-width space,
zero-width non-joiner, zero-width joiner, BOM, RTL override. -/
def hasSuspiciousSequences (content : String) : Bool :=
  [Char.ofNat 0x200B, Char.ofNat 0x200C, Char.ofNat 0x200D,
   Char.ofNat 0xFEFF, Char.ofNat 0x202E].any
    (fun c => content.data.contains c)

/-- Detections contributed by one message (body of the loop in
`Detector.Analyze`, detector.go:120-169).  System messages are skipped. -/
def analyzeMessage (d : Detector) (i : Nat) (msg : Message) : List Detection :=
  if msg.role == "system" then []
  else
    let content := msg.content
    let location := formatLocation i msg.role
    let regexDets := d.patterns.filterMap fun p =>
      if p.matchesContent content then
        some { type := categorizePattern p.src, pattern := p.src,
               location := location, confidence := (85 : ℚ)/100,
               description := "Regex pattern match detected" }
      else none
    let lowerContent := goToLower content
    let kwDets := d.keywordPatterns.filterMap fun keyword =>
      if goContains lowerContent keyword then
        some { type := "keyword_match", pattern := keyword,
               location := location, confidence := (7 : ℚ)/10,
               description := "Suspicious keyword detected" }
      else none
    let susDets :=
      if hasSuspiciousSequences content then
        [{ type := "suspicious_encoding", pattern := "special_characters",
           location := location, confidence := (6 : ℚ)/10,
           description := "Suspicious character sequences detected" : Detection }]
      else []
    regexDets ++ kwDets ++ susDets

/-- Maximum-confidence accumulator of `calculateThreatLevel`
(detector.go:239-254): starts at 0.0, keeps the larger value. -/
def goMaxConfidence (detections : List Detection) : ℚ :=
  detections.foldl (fun m d => if m < d.confidence then d.confidence else m) 0

/-- The critical detection types of `calculateThreatLevel`
(detector.go:240-244). -/
def criticalTypes : List String :=
  ["jailbreak_attempt", "data_exfiltration", "delimiter_injection"]

/-- `hasCritical` accumulator of `calculateThreatLevel`. -/
def hasCriticalType (detections : List Detection) : Bool :=
  detections.any fun d => criticalTypes.contains d.type

/-- `calculateThreatLevel` (detector.go:234-266). -/
def calculateThreatLevel (detections : List Detection) : String :=
  if detections.length = 0 then "none"
  else if hasCriticalType detections || 3 ≤ detections.length then "critical"
  else if (85 : ℚ)/100 ≤ goMaxConfidence detections then "high"
  else if (7 : ℚ)/10 ≤ goMaxConfidence detections then "medium"
  else "low"

/-- Recommendation text per detection type (`generateRecommendations`
switch, detector.go:278-291). -/
def recommendationFor (t : String) : Option String :=
  if t == "instruction_override" then
    some "Review input for attempts to override system instructions"
  else if t == "role_manipulation" then
    some "Input attempts to manipulate AI role/persona"
  else if t == "prompt_extraction" then
    some "Input attempts to extract system prompt"
  else if t == "jailbreak_attempt" then
    some "Known jailbreak pattern detected - block recommended"
  else if t == "delimiter_injection" then
    some "Special delimiter tokens detected - potential injection"
  else if t == "data_exfiltration" then
    some "Potential data exfiltration attempt detected"
  else none

/-- Loop of `generateRecommendations` (detector.go:268-295), carrying the
`typesSeen` set (every visited type is marked, even ones without a text). -/
def generateRecommendationsAux : List Detection → List String → List String
  | [], _ => []
  | d :: rest, seen =>
    if seen.contains d.type then generateRecommendationsAux rest seen
    else
      match recommendationFor d.type with
      | some r => r :: generateRecommendationsAux rest (d.type :: seen)
      | none => generateRecommendationsAux rest (d.type :: seen)

/-- `generateRecommendations` (detector.go:268-295). -/
def generateRecommendations (detections : List Detection) : List String :=
  generateRecommendationsAux detections []

/-- All detections of a request (the message loop of `Detector.Analyze`). -/
def analyzeDetections (d : Detector) (messages : List Message) : List Detection :=
  messages.enum.flatMap fun p => analyzeMessage d p.1 p.2

/-- `Detector.Analyze` (detector.go:108-183). -/
def analyze (d : Detector) (messages : List Message) : SecurityReport :=
  if !d.enabled then
    { injectionDetected := false, threatLevel := "none", detections := [],
      blockedReason := "", recommendations := [] }
  else
    let dets := analyzeDetections d messages
    let injectionDetected := decide (0 < dets.length)
    let threatLevel := calculateThreatLevel dets
    let recommendations := if injectionDetected then generateRecommendations dets else []
    let blockedReason :=
      if injectionDetected && d.blockOnDetection && threatLevel != "low" then
        "Potential prompt injection detected"
      else ""
    { injectionDetected := injectionDetected, threatLevel := threatLevel,
      detections := dets, blockedReason := blockedReason,
      recommendations := recommendations }

/-- `Detector.ShouldBlock` (detector.go:186-191). -/
def shouldBlock (d : Detector) (report : SecurityReport) : Bool :=
  if !d.blockOnDetection then false
  else report.threatLevel == "high" || report.threatLevel == "critical"

/-- Spec-side threat-level function, written from the spec sentence
("level = none if D empty, critical if critical or size at least 3, else
high if m at least 0.85, medium if m at least 0.70, else low", where m is
the maximum detection confidence and critical holds when some detection has
one of the three critical types).  To be compared against
`calculateThreatLevel`. -/
def specThreatLevel (D : List Detection) : String :=
  if D = [] then "none"
  else if (∃ d ∈ D, d.type = "jailbreak_attempt" ∨ d.type = "data_exfiltration" ∨
            d.type = "delimiter_injection") ∨ 3 ≤ D.length then "critical"
  else if ∃ d ∈ D, (85 : ℚ)/100 ≤ d.confidence then "high"
  else if ∃ d ∈ D, (7 : ℚ)/10 ≤ d.confidence then "medium"
  else "low"

/-! ## PII masker (package pii, in internal/services/llm/client.go bundle) -/

/-- `models.PIIMatch`.  Positions are indices into the then-current content
string. -/
structure PIIMatch where
  type : String
  originalValue : String
  maskedValue : String
  location : String
  startPosition : Nat
  endPosition : Nat
deriving Repr, DecidableEq

/-- `models.PIIReport`. -/
structure PIIReport where
  piiDetected : Bool
  piiCount : Nat
  piiTypes : List PIIMatch
  maskedCount : Nat
deriving Repr, DecidableEq

/-- A compiled PII category regex: the category name together with the
semantics of `re.FindAllStringIndex(s, -1)` (list of half-open index
ranges, ascending).  The regexp engine is external to the repository. -/
def PIIMatcher := String → List (Nat × Nat)

/-- `pii.Masker`.  `patterns` is the Go map `m.patterns` in its (unspecified)
iteration order. -/
structure Masker where
  patterns : List (String × PIIMatcher)
  enabled : Bool
  maskChar : String
  preserveDomain : Bool
  enabledTypes : List String

/-- `NewMasker` (pii source): keep the compiled pattern of every category
that is listed in `piiTypes`, or all categories when `piiTypes` is empty.
`table` is the compiled built-in pattern table. -/
def newMasker (table : List (String × PIIMatcher)) (piiTypes : List String)
    (maskChar : String) (preserveDomain enabled : Bool) : Masker :=
  { patterns := table.filter fun kv => piiTypes.contains kv.1 || piiTypes.isEmpty,
    enabled := enabled, maskChar := maskChar, preserveDomain := preserveDomain,
    enabledTypes := piiTypes }

/-- Go `s[start:stop]` on the model string. -/
def substrStr (s : String) (start stop : Nat) : String :=
  ⟨(s.data.take stop).drop start⟩

/-- Go `s[:start] + repl + s[stop:]`. -/
def spliceStr (s : String) (start stop : Nat) (repl : String) : String :=
  ⟨s.data.take start ++ repl.data ++ s.data.drop stop⟩

/-- `strings.Repeat(c, n)`. -/
def goRepeat (c : String) (n : Nat) : String :=
  ⟨(List.replicate n c.data).flatten⟩

/-- `strings.ReplaceAll(s, old, new)` restricted to the single-character
`old` values used by the masker (`-` and the space). -/
def removeChar (s : String) (c : Char) : String :=
  ⟨s.data.filter (fun x => x != c)⟩

/-- `strings.Split(s, "@")` arity test used by the email mask: content
before and after the first `@`, provided there is exactly one `@`. -/
def splitAtSign (s : String) : Option (String × String) :=
  if (s.data.filter (fun c => c == '@')).length == 1 then
    some (⟨s.data.takeWhile (fun c => c != '@')⟩,
          ⟨(s.data.dropWhile (fun c => c != '@')).drop 1⟩)
  else none

/-- `Masker.generateMask` (pii source). -/
def generateMask (m : Masker) (piiType original : String) : String :=
  let maskChar := if m.maskChar == "" then "*" else m.maskChar
  if piiType == "email" then
    if m.preserveDomain then
      match splitAtSign original with
      | some (localPart, domain) =>
        goRepeat maskChar localPart.length ++ "@" ++ domain
      | none => goRepeat maskChar original.length
    else goRepeat maskChar original.length
  else if piiType == "phone" then
    if 4 ≤ original.length then
      goRepeat maskChar (original.length - 4) ++ ⟨original.data.drop (original.length - 4)⟩
    else goRepeat maskChar original.length
  else if piiType == "ssn" then
    let cleaned := removeChar (removeChar original '-') ' '
    if 4 ≤ cleaned.length then
      "***-**-" ++ ⟨cleaned.data.drop (cleaned.length - 4)⟩
    else goRepeat maskChar original.length
  else if piiType == "credit_card" then
    let cleaned := removeChar original ' '
    if 4 ≤ cleaned.length then
      goRepeat maskChar (cleaned.length - 4) ++ ⟨cleaned.data.drop (cleaned.length - 4)⟩
    else goRepeat maskChar original.length
  else if piiType == "ip_address" || piiType == "ipv6_address" then
    "[MASKED_IP]"
  else if piiType == "aws_key" || piiType == "aws_secret" || piiType == "api_key" then
    if 4 < original.length then
      ⟨original.data.take 4⟩ ++ goRepeat maskChar (original.length - 4)
    else goRepeat maskChar original.length
  else
    "[MASKED_" ++ goToUpper piiType ++ "]"

/-- All characters of the (nonempty) string equal its first one. -/
def allSameChar (s : String) : Bool :=
  match s.data with
  | [] => true
  | c :: rest => rest.all (fun x => x == c)

/-- `Masker.isFalsePositive` (pii source). -/
def isFalsePositive (piiType value : String) : Bool :=
  if piiType == "phone" then
    goHasPre value "v" || goHasPre value "V"
  else if piiType == "ssn" then
    value == "000-00-0000" || value == "123-45-6789"
  else if piiType == "bank_account" || piiType == "routing_number" then
    (removeChar value ' ').length < 8 || allSameChar value
  else if piiType == "name" then
    ["Hello World", "Lorem Ipsum", "Foo Bar", "Test User"].any
      (fun w => goToLower value == goToLower w)
  else if piiType == "zip_code" then
    value.length == 4 && (goHasPre value "19" || goHasPre value "20")
  else false

/-- Inner loop of `Masker.maskContent`: process the match ranges of one
category from the last match towards the first (the argument list is the
reversed `FindAllStringIndex` result), splicing replacements into the
running string. -/
def maskMatchesRev (m : Masker) (piiType location : String) :
    List (Nat × Nat) → String → String × List PIIMatch
  | [], result => (result, [])
  | (start, stop) :: rest, result =>
    let originalValue := substrStr result start stop
    if isFalsePositive piiType originalValue then
      maskMatchesRev m piiType location rest result
    else
      let maskedValue := generateMask m piiType originalValue
      let piiMatch : PIIMatch :=
        { type := piiType, originalValue := originalValue,
          maskedValue := maskedValue, location := location,
          startPosition := start, endPosition := stop }
      let next := maskMatchesRev m piiType location rest
        (spliceStr result start stop maskedValue)
      (next.1, piiMatch :: next.2)

/-- `Masker.maskContent` (pii source): fold over the category map in its
iteration order, re-running each category matcher on the current string. -/
def maskContent (m : Masker) (content location : String) : String × List PIIMatch :=
  m.patterns.foldl
    (fun acc kv =>
      let allMatches := kv.2 acc.1
      let step := maskMatchesRev m kv.1 location allMatches.reverse acc.1
      (step.1, acc.2 ++ step.2))
    (content, [])

/-- `Masker.Mask` (pii source). -/
def mask (m : Masker) (messages : List Message) : List Message × PIIReport :=
  if !m.enabled then
    (messages, { piiDetected := false, piiCount := 0, piiTypes := [], maskedCount := 0 })
  else
    let steps := messages.enum.map fun p =>
      let r := maskContent m p.2.content (formatLocation p.1 p.2.role)
      ((⟨p.2.role, r.1⟩ : Message), r.2)
    let piiTypes := (steps.map Prod.snd).flatten
    let maskedMessages := steps.map Prod.fst
    (maskedMessages,
     { piiDetected := decide (0 < piiTypes.length), piiCount := piiTypes.length,
       piiTypes := piiTypes, maskedCount := piiTypes.length })

/-! ## Audit/alert engine (package audit, src/unnamed/part_008) -/

/-- `models.Alert`.  `createdAt` and the acknowledgement time are modelled
as abstract instants (Nat). -/
structure Alert where
  id : String
  type : String
  severity : String
  title : String
  message : String
  userID : String
  policyID : String
  createdAt : Nat
  ackedAt : Option Nat
  ackedBy : String
deriving Repr, DecidableEq

/-- `Logger.AckAlert` (part_008:412-426): scan the alert list; the first
alert with a matching id gets `ackedAt := now` and `ackedBy := userID`
(unconditionally — also when it was already acknowledged), and the scan
stops.  The function returns nil in Go whether or not the id was found, so
the model returns only the new state. -/
def ackAlert (now : Nat) (alertID userID : String) : List Alert → List Alert
  | [] => []
  | a :: rest =>
    if a.id == alertID then
      { a with ackedAt := some now, ackedBy := userID } :: rest
    else a :: ackAlert now alertID userID rest

/-! ## Spending ledger (package spending, in internal/services/settings/service.go bundle) -/

/-- `spending.ModelPricing`: USD per 1M tokens, modelled exactly. -/
structure ModelPricing where
  inputPricePerMillion : ℚ
  outputPricePerMillion : ℚ
deriving Repr, DecidableEq

/-- The `defaultPricing` table in its Go source-literal order.  Go iterates
the map in an unspecified order, so functions ranging over it take the
iteration sequence as a parameter; theorems quantify over permutations of
this list. -/
def defaultPricingList : List (String × ModelPricing) :=
  [("gpt-4o", ⟨(5 : ℚ)/2, 10⟩),
   ("gpt-4o-mini", ⟨(15 : ℚ)/100, (6 : ℚ)/10⟩),
   ("gpt-4-turbo", ⟨10, 30⟩),
   ("gpt-4", ⟨30, 60⟩),
   ("gpt-3.5-turbo", ⟨(5 : ℚ)/10, (15 : ℚ)/10⟩),
   ("claude-3-5-sonnet-latest", ⟨3, 15⟩),
   ("claude-3-5-sonnet-20241022", ⟨3, 15⟩),
   ("claude-3-opus-20240229", ⟨15, 75⟩),
   ("claude-3-sonnet-20240229", ⟨3, 15⟩),
   ("claude-3-haiku-20240307", ⟨(25 : ℚ)/100, (125 : ℚ)/100⟩),
   ("gemini-1.5-pro", ⟨(125 : ℚ)/100, 5⟩),
   ("gemini-1.5-flash", ⟨(75 : ℚ)/1000, (3 : ℚ)/10⟩),
   ("gemini-pro", ⟨(5 : ℚ)/10, (15 : ℚ)/10⟩),
   ("anthropic.claude-3-5-sonnet-20241022-v2:0", ⟨3, 15⟩),
   ("anthropic.claude-3-sonnet-20240229-v1:0", ⟨3, 15⟩),
   ("anthropic.claude-3-haiku-20240307-v1:0", ⟨(25 : ℚ)/100, (125 : ℚ)/100⟩),
   ("grok-beta", ⟨5, 15⟩),
   ("default", ⟨1, 3⟩)]

/-- `defaultPricing["default"]` (the fallback entry, 1.00 / 3.00). -/
def defaultFallback : ModelPricing := ⟨1, 3⟩

/-- Exact map lookup (`table[key]`), modelled on the entry list; Go map
access by exact key is deterministic. -/
def lookupPricing (l : List (String × ModelPricing)) (k : String) : Option ModelPricing :=
  (l.find? fun kv => kv.1 == k).map Prod.snd

/-- `Tracker.GetPricing` (spending source, service.go bundle lines 318-341):
custom override, then exact default entry, then the FIRST default entry whose
key is a prefix of the model name in the map iteration order `order`, then
the `default` fallback.  `order` is the iteration sequence of the
`defaultPricing` map; `custom` is the tracker's custom pricing map. -/
def getPricing (order custom : List (String × ModelPricing)) (model : String) :
    ModelPricing :=
  match lookupPricing custom model with
  | some p => p
  | none =>
    match lookupPricing order model with
    | some p => p
    | none =>
      match order.find? (fun kv => goHasPre model kv.1) with
      | some kv => kv.2
      | none => defaultFallback

/-- `Tracker.CalculateCost` (spending source, lines 344-351). -/
def calculateCost (order custom : List (String × ModelPricing)) (model : String)
    (promptTokens completionTokens : Nat) : ℚ :=
  let pricing := getPricing order custom model
  (promptTokens : ℚ) * pricing.inputPricePerMillion / 1000000 +
    (completionTokens : ℚ) * pricing.outputPricePerMillion / 1000000

/-- `models.SpendingLimit` (behavioral fields; currency, reset and creation
timestamps do not influence `RecordUsage` and are omitted). -/
structure SpendingLimit where
  id : String
  userID : String
  limitType : String
  limitAmount : ℚ
  currentSpend : ℚ
  alertAt : ℚ
deriving Repr, DecidableEq

/-- `models.Usage`. -/
structure Usage where
  promptTokens : Nat
  completionTokens : Nat
  totalTokens : Nat
deriving Repr, DecidableEq

/-- What `Tracker.RecordUsage` emits besides the state update.  The source
only ever writes a zerolog warning when a threshold is reached
(service.go bundle lines 390-400); the spending package has no reference to
the audit logger or the alert list, so the other two constructors mark
events the code could emit but never does. -/
inductive SpendEmission where
  | warning (limitID : String)
  | spendingAuditEntry (limitID : String)
  | spendingAlertObj (limitID : String)
deriving Repr, DecidableEq

/-- The user-match test of `RecordUsage` and `CheckLimit`: the limit's own
user, or a global limit (empty or `*`). -/
def limitMatchesUser (l : SpendingLimit) (userID : String) : Bool :=
  l.userID == userID || l.userID == "" || l.userID == "*"

/-- Loop body of `Tracker.RecordUsage` for one limit (service.go bundle
lines 376-403), on the happy path where the repository update succeeds. -/
def recordUsageStep (userID : String) (cost : ℚ) (limit : SpendingLimit) :
    SpendingLimit × List SpendEmission :=
  if limitMatchesUser limit userID then
    if 0 < limit.alertAt ∧
        limit.limitAmount * (limit.alertAt / 100) ≤ limit.currentSpend + cost then
      ({ limit with currentSpend := limit.currentSpend + cost },
       [SpendEmission.warning limit.id])
    else ({ limit with currentSpend := limit.currentSpend + cost }, [])
  else (limit, [])

/-- `Tracker.RecordUsage` (service.go bundle lines 354-406): compute the
cost, add it to every matching limit, and check the alert threshold against
the updated spend.  Returns the updated limit list (in the repository's
list order) and the emissions. -/
def recordUsage (order custom : List (String × ModelPricing))
    (userID model : String) (usage : Usage) (limits : List SpendingLimit) :
    List SpendingLimit × List SpendEmission :=
  let cost := calculateCost order custom model usage.promptTokens usage.completionTokens
  limits.foldl
    (fun acc limit =>
      let r := recordUsageStep userID cost limit
      (acc.1 ++ [r.1], acc.2 ++ r.2))
    ([], [])

/-! ## Policy evaluator (internal/services/policy/engine.go) -/

/-- A Go `interface` value as it can appear in `PolicyRule.Value`,
`EvaluationRequest` fields and metadata. -/
inductive GoValue where
  | str (s : String)
  | float64 (v : ℚ)
  | float32 (v : ℚ)
  | int (v : Int)
  | int64 (v : Int)
  | bool (b : Bool)
  | nil
deriving Repr, DecidableEq

/-- `toFloat` (engine.go:307-320): float64, float32, int and int64 keep
their numeric value; every other value — including every string — becomes
0. -/
def toFloat : GoValue → ℚ
  | .float64 v => v
  | .float32 v => v
  | .int v => (v : ℚ)
  | .int64 v => (v : ℚ)
  | _ => 0

/-- `fmt.Sprintf("%v", v)` for the value kinds above.  Go float formatting
is external; it is abstracted by the `fmtFloat` parameter threaded through
the evaluator. -/
def goSprintf (fmtFloat : ℚ → String) : GoValue → String
  | .str s => s
  | .float64 v => fmtFloat v
  | .float32 v => fmtFloat v
  | .int v => toString v
  | .int64 v => toString v
  | .bool b => cond b "true" "false"
  | .nil => "<nil>"

/-- `findSubstring` (engine.go:327-334). -/
def findSubstring (s substr : String) : Bool :=
  subList substr.data s.data

/-- `contains` (engine.go:322-325). -/
def goContainsFn (s substr : String) : Bool :=
  decide (substr.length ≤ s.length) &&
    (s == substr || substr.length == 0 ||
      (decide (0 < s.length) && decide (0 < substr.length) && findSubstring s substr))

/-- `Engine.compareValues` (engine.go:288-305). -/
def compareValues (fmtFloat : ℚ → String) (fieldValue : GoValue)
    (operator : String) (ruleValue : GoValue) : Bool :=
  if operator == "equals" then
    goSprintf fmtFloat fieldValue == goSprintf fmtFloat ruleValue
  else if operator == "not_equals" then
    goSprintf fmtFloat fieldValue != goSprintf fmtFloat ruleValue
  else if operator == "greater_than" then
    decide (toFloat ruleValue < toFloat fieldValue)
  else if operator == "less_than" then
    decide (toFloat fieldValue < toFloat ruleValue)
  else if operator == "contains" then
    goContainsFn (goSprintf fmtFloat fieldValue) (goSprintf fmtFloat ruleValue)
  else if operator == "not_contains" then
    !goContainsFn (goSprintf fmtFloat fieldValue) (goSprintf fmtFloat ruleValue)
  else false

/-- `models.PolicyRule`. -/
structure PolicyRule where
  id : String
  field : String
  operator : String
  value : GoValue
  condition : String
deriving Repr, DecidableEq

/-- `models.PolicyTargets`. -/
structure PolicyTargets where
  users : List String
  groups : List String
  models : List String
  providers : List String
  allUsers : Bool
deriving Repr, DecidableEq

/-- `models.PolicyActions` (behavioral fields; notify, webhook and log-level
fields are carried unused by the evaluator and omitted). -/
structure PolicyActions where
  action : String
  message : String
deriving Repr, DecidableEq

/-- `models.Policy` (behavioral fields; config, metadata and timestamps do
not influence evaluation and are omitted). -/
structure Policy where
  id : String
  name : String
  type : String
  status : String
  priority : Int
  rules : List PolicyRule
  targets : PolicyTargets
  actions : PolicyActions
deriving Repr, DecidableEq

/-- `models.User` (behavioral fields for targeting). -/
structure User where
  id : String
  groups : List String
deriving Repr, DecidableEq

/-- `policy.EvaluationRequest`. -/
structure EvaluationRequest where
  userID : String
  model : String
  provider : String
  tokenCount : Int
  cost : ℚ
  contentType : String
  metadata : List (String × GoValue)
deriving Repr, DecidableEq

/-- `models.PolicyEvaluation` (the `evaluatedAt` timestamp is omitted; it
is wall-clock output and only adds further run-to-run variation). -/
structure PolicyEvaluation where
  policyID : String
  policyName : String
  matched : Bool
  action : String
  message : String
deriving Repr, DecidableEq

/-- `policy.EvaluationResult`. -/
structure EvaluationResult where
  allowed : Bool
  blockedBy : String
  blockReason : String
  warnings : List String
  throttled : Bool
  evaluations : List PolicyEvaluation
deriving Repr, DecidableEq

/-- Field resolution of `Engine.evaluateRule` (engine.go:265-285): built-in
fields, else a metadata lookup (a missing key yields the nil interface). -/
def resolveField (req : EvaluationRequest) (field : String) : GoValue :=
  if field == "user_id" then .str req.userID
  else if field == "model" then .str req.model
  else if field == "provider" then .str req.provider
  else if field == "token_count" then .int req.tokenCount
  else if field == "cost" then .float64 req.cost
  else ((req.metadata.find? fun kv => kv.1 == field).map Prod.snd).getD .nil

/-- `Engine.evaluateRule` (engine.go:265-285). -/
def evaluateRule (fmtFloat : ℚ → String) (rule : PolicyRule)
    (req : EvaluationRequest) : Bool :=
  compareValues fmtFloat (resolveField req rule.field) rule.operator rule.value

/-- Loop of `Engine.evaluateRules` after the first rule (engine.go:240-260):
`and` short-circuits false on a mismatch, `or` short-circuits true on a
match, any other condition string just moves on. -/
def evaluateRulesLoop (fmtFloat : ℚ → String) (req : EvaluationRequest) :
    List PolicyRule → Bool
  | [] => true
  | rule :: rest =>
    let matched := evaluateRule fmtFloat rule req
    if rule.condition == "and" then
      if !matched then false else evaluateRulesLoop fmtFloat req rest
    else if rule.condition == "or" then
      if matched then true else evaluateRulesLoop fmtFloat req rest
    else evaluateRulesLoop fmtFloat req rest

/-- `Engine.evaluateRules` (engine.go:235-263): an empty rule list matches;
otherwise the first rule must match and the rest combine via their
conditions. -/
def evaluateRules (fmtFloat : ℚ → String) (rules : List PolicyRule)
    (req : EvaluationRequest) : Bool :=
  match rules with
  | [] => true
  | r0 :: rest =>
    if !evaluateRule fmtFloat r0 req then false
    else evaluateRulesLoop fmtFloat req rest

/-- `Engine.policyTargetsUser` (engine.go:209-233).  `users` is the
engine's user map as an association list (exact-key access). -/
def policyTargetsUser (users : List (String × User)) (policy : Policy)
    (userID : String) : Bool :=
  if policy.targets.allUsers then true
  else if policy.targets.users.contains userID then true
  else if (match (users.find? fun kv => kv.1 == userID).map Prod.snd with
           | some u => u.groups.any fun g => policy.targets.groups.contains g
           | none => false) then true
  else policy.targets.users.isEmpty && policy.targets.groups.isEmpty

/-- `Engine.evaluatePolicy` (engine.go:181-207). -/
def evaluatePolicy (fmtFloat : ℚ → String) (users : List (String × User))
    (policy : Policy) (req : EvaluationRequest) : PolicyEvaluation :=
  let eval0 : PolicyEvaluation :=
    { policyID := policy.id, policyName := policy.name, matched := false,
      action := policy.actions.action, message := "" }
  if !policyTargetsUser users policy req.userID then eval0
  else
    let matched := evaluateRules fmtFloat policy.rules req
    if matched then
      { eval0 with
        matched := true
        message :=
          if policy.actions.message == "" then
            "Policy \x27" ++ policy.name ++ "\x27 triggered"
          else policy.actions.message }
    else { eval0 with matched := matched }

/-- `Engine.getActivePolicies` (engine.go:171-179): filter the policy map
for `status = active`, KEEPING the map iteration order — no sorting by
priority happens, despite the comment at the call site (engine.go:126).
`policiesIter` is the engine's policy map in its (unspecified, run-to-run
varying) Go iteration order. -/
def getActivePolicies (policiesIter : List Policy) : List Policy :=
  policiesIter.filter fun p => p.status == "active"

/-- `Engine.EvaluateRequest` (engine.go:117-148): walk the active policies
in the order produced by `getActivePolicies`; a matched `deny` overwrites
`allowed/blockedBy/blockReason`, `warn` appends, `throttle` sets the flag;
every visited policy contributes one evaluation record in visit order. -/
def evaluateRequest (fmtFloat : ℚ → String) (users : List (String × User))
    (policiesIter : List Policy) (req : EvaluationRequest) : EvaluationResult :=
  (getActivePolicies policiesIter).foldl
    (fun result policy =>
      let eval := evaluatePolicy fmtFloat users policy req
      let result := { result with evaluations := result.evaluations ++ [eval] }
      if eval.matched then
        if eval.action == "deny" then
          { result with
            allowed := false
            blockedBy := policy.id
            blockReason := eval.message }
        else if eval.action == "warn" then
          { result with warnings := result.warnings ++ [eval.message] }
        else if eval.action == "throttle" then
          { result with throttled := true }
        else result
      else result)
    { allowed := true, blockedBy := "", blockReason := "", warnings := [],
      throttled := false, evaluations := [] }

/-! ## Guard pipeline (internal/api/handlers.go) -/

/-- A value stored in `AuditLog.Details`. -/
inductive DetailValue where
  | b (v : Bool)
  | n (v : Nat)
  | s (v : String)
deriving Repr, DecidableEq

/-- `models.AuditLog` (behavioral fields of `logRequest`; id and timestamp
are filled by the logger, ip/user-agent/duration come from the HTTP layer
and wall clock and are omitted). -/
structure AuditLog where
  requestID : String
  eventType : String
  action : String
  resourceType : String
  status : String
  details : List (String × DetailValue)
deriving Repr, DecidableEq

/-- The audit entry built by `Handler.logRequest` (handlers.go:262-302):
always `event_type = request`, status `blocked` iff not allowed, details
assembled from the optional security and PII reports. -/
def logRequest (requestID action : String) (allowed : Bool)
    (secReport : Option SecurityReport) (piiReport : Option PIIReport) : AuditLog :=
  let status := if !allowed then "blocked" else "success"
  let details := [("action", DetailValue.s action)]
  let details :=
    match secReport with
    | some r =>
      details ++
        [("injection_detected", DetailValue.b r.injectionDetected),
         ("threat_level", DetailValue.s r.threatLevel)] ++
        (if r.injectionDetected then
          [("detection_count", DetailValue.n r.detections.length)]
         else [])
    | none => details
  let details :=
    match piiReport with
    | some r =>
      details ++
        [("pii_detected", DetailValue.b r.piiDetected),
         ("pii_count", DetailValue.n r.piiCount)]
    | none => details
  { requestID := requestID, eventType := "request", action := action,
    resourceType := "llm", status := status, details := details }

/-- `models.GuardRequest` (fields the pipeline reads; max_tokens,
temperature, stream and metadata only feed the per-request client
configuration and are omitted). -/
structure GuardRequest where
  requestID : String
  messages : List Message
  provider : String
  model : String
  apiKey : String
  baseURL : String
deriving Repr

/-- `models.LLMResponse`. -/
structure LLMResponse where
  content : String
  model : String
  finishReason : String
  usage : Option Usage
deriving Repr, DecidableEq

/-- `models.ProcessedInput`. -/
structure ProcessedInput where
  originalMessages : List Message
  maskedMessages : List Message
  piiMasked : Bool
deriving Repr, DecidableEq

/-- `models.GuardResponse` (processing_time, wall clock, omitted). -/
structure GuardResponse where
  requestID : String
  allowed : Bool
  processedInput : Option ProcessedInput
  llmResponse : Option LLMResponse
  securityReport : Option SecurityReport
  piiReport : Option PIIReport
  error : Option String
deriving Repr, DecidableEq

/-- Observable side effects of one `Guard` call.  `recordSpending` marks a
call into the spending ledger: the handler never performs one, the
constructor exists so the no-spend property is statable. -/
inductive GuardEvent where
  | getClient
  | upstreamCall (messages : List Message)
  | recordSpending (userID model : String)
  | audit (entry : AuditLog)
deriving Repr, DecidableEq

/-- The handler's LLM wiring: factory presence, the outcome of
`factory.GetClient` (the concrete client is abstracted since all calls go
through `chat`), the upstream chat call, the default client, and whether an
audit logger is attached. -/
structure LLMEnv where
  hasFactory : Bool
  getClient : GuardRequest → Except String Unit
  chat : List Message → Except String LLMResponse
  defaultClientInitialized : Bool
  hasAuditLogger : Bool

/-- Step 3 of `Guard` (handlers.go:96-120): factory branch, default-client
branch, or nothing configured.  Returns the optional LLM response, the
optional error string, and the provider-side events in order. -/
def guardLLMStep (env : LLMEnv) (req : GuardRequest) (masked : List Message) :
    Option LLMResponse × Option String × List GuardEvent :=
  if env.hasFactory then
    match env.getClient req with
    | .error e => (none, some e, [GuardEvent.getClient])
    | .ok _ =>
      match env.chat masked with
      | .error e => (none, some e, [GuardEvent.getClient, GuardEvent.upstreamCall masked])
      | .ok r => (some r, none, [GuardEvent.getClient, GuardEvent.upstreamCall masked])
  else if env.defaultClientInitialized then
    match env.chat masked with
    | .error e => (none, some e, [GuardEvent.upstreamCall masked])
    | .ok r => (some r, none, [GuardEvent.upstreamCall masked])
  else (none, none, [])

/-- `Handler.Guard` (handlers.go:54-128).  `freshID` stands for the
generated uuid used when the request carries none.  Returns the response
and the ordered trace of observable side effects.  On the injection-block
path (handlers.go:80-85) the handler responds 403 and returns BEFORE the
`logRequest` call at handlers.go:125, so the trace of a blocked request is
empty. -/
def guard (det : Detector) (m : Masker) (env : LLMEnv) (freshID : String)
    (req : GuardRequest) : GuardResponse × List GuardEvent :=
  let requestID := if req.requestID == "" then freshID else req.requestID
  let securityReport := analyze det req.messages
  if shouldBlock det securityReport then
    ({ requestID := requestID, allowed := false, processedInput := none,
       llmResponse := none, securityReport := some securityReport,
       piiReport := none, error := none }, [])
  else
    let masked := mask m req.messages
    let step := guardLLMStep env req masked.1
    let response : GuardResponse :=
      { requestID := requestID, allowed := true,
        processedInput := some
          { originalMessages := req.messages, maskedMessages := masked.1,
            piiMasked := masked.2.piiDetected },
        llmResponse := step.1, securityReport := some securityReport,
        piiReport := some masked.2, error := step.2.1 }
    let auditEvents :=
      if env.hasAuditLogger then
        [GuardEvent.audit
          (logRequest requestID "guard" response.allowed
            response.securityReport response.piiReport)]
      else []
    (response, step.2.2 ++ auditEvents)

/-- Events that witness a provider interaction or a spending write. -/
def isProviderOrSpendEvent : GuardEvent → Bool
  | .getClient => true
  | .upstreamCall _ => true
  | .recordSpending _ _ => true
  | .audit _ => false

/-- Events that are `event_type = request` audit appends. -/
def isRequestAuditEvent : GuardEvent → Bool
  | .audit a => a.eventType == "request"
  | _ => false

/-! ## Spec-side definitions (written from the spec words, for comparison
with the source embeddings) -/

/-- Digit accumulator for the spec-side numeric-string reading. -/
def natOfDigitsAux : List Char → Nat → Option Nat
  | [], acc => some acc
  | c :: cs, acc =>
    if c.isDigit then natOfDigitsAux cs (acc * 10 + (c.toNat - 48)) else none

/-- Spec-side reading of a numeric string as a rational: optional minus
sign, decimal digits, optional fractional part.  Used only to state what
the claim says `greater_than`/`less_than` coercion does with numeric
strings. -/
def parseNumericString (s : String) : Option ℚ :=
  let core : List Char → Option ℚ := fun cs =>
    let ip := cs.takeWhile fun c => c != '.'
    let rest := cs.dropWhile fun c => c != '.'
    match rest with
    | [] =>
      if ip.isEmpty then none
      else (natOfDigitsAux ip 0).map fun n => (n : ℚ)
    | _ :: fp =>
      if ip.isEmpty || fp.isEmpty then none
      else
        match natOfDigitsAux ip 0, natOfDigitsAux fp 0 with
        | some n, some f => some ((n : ℚ) + (f : ℚ) / (10 : ℚ) ^ fp.length)
        | _, _ => none
  match s.data with
  | '-' :: cs => (core cs).map fun q => -q
  | cs => core cs

/-- Claim-side coercion for `greater_than`/`less_than` (C8): like `toFloat`
but with numeric strings coerced to their numeric value, unparseable values
to 0. -/
def specToFloat : GoValue → ℚ
  | .float64 v => v
  | .float32 v => v
  | .int v => (v : ℚ)
  | .int64 v => (v : ℚ)
  | .str s => (parseNumericString s).getD 0
  | _ => 0

/-- Claim-side numeric comparison for C8. -/
def specCompareNumeric (fieldValue : GoValue) (operator : String)
    (ruleValue : GoValue) : Bool :=
  if operator == "greater_than" then
    decide (specToFloat ruleValue < specToFloat fieldValue)
  else if operator == "less_than" then
    decide (specToFloat fieldValue < specToFloat ruleValue)
  else false

/-- Claim-side longest-prefix selection over the default pricing table
(order-independent): among the entries whose key is a prefix of the model
name, the one with the longest key. -/
def specLongestMatch (table : List (String × ModelPricing)) (model : String) :
    Option (String × ModelPricing) :=
  table.foldl
    (fun best kv =>
      if goHasPre model kv.1 then
        match best with
        | none => some kv
        | some b => if b.1.length < kv.1.length then some kv else some b
      else best)
    none

/-- Claim-side pricing resolution for C7: custom override, exact default
entry, LONGEST-prefix default entry, fallback. -/
def getPricingSpec (custom : List (String × ModelPricing)) (model : String) :
    ModelPricing :=
  match lookupPricing custom model with
  | some p => p
  | none =>
    match lookupPricing defaultPricingList model with
    | some p => p
    | none =>
      match specLongestMatch defaultPricingList model with
      | some kv => kv.2
      | none => defaultFallback

/-! ## Concrete sample data used by counterexamples, failing inputs and
witnesses -/

/-- A detector configured like `NewDetector(nil, true, true)` restricted to
the built-in keyword library.  The sample contents below match none of the
built-in regular expressions, so the empty regex list is faithful on those
inputs. -/
def sampleBlockedDetector : Detector :=
  { patterns := [], keywordPatterns := defaultKeywordPatterns,
    enabled := true, blockOnDetection := true }

/-- A masker constructed with `enabled = false` (never consulted on the
blocked path). -/
def sampleDisabledMasker : Masker := newMasker [] [] "*" true false

/-- Handler environment: factory attached, client creation succeeds, audit
logger attached.  The chat function is never reached on the blocked path. -/
def sampleGuardEnv : LLMEnv :=
  { hasFactory := true, getClient := fun _ => Except.ok (),
    chat := fun _ => Except.error "unreachable",
    defaultClientInitialized := false, hasAuditLogger := true }

/-- A guard request whose single user message contains three library
keywords (`system prompt:`, `[system]`, `assistant:`), giving three
detections and hence a `critical` threat level that blocks. -/
def sampleBlockedRequest : GuardRequest :=
  { requestID := "req-1",
    messages := [⟨"user", "system prompt: [system] assistant:"⟩],
    provider := "", model := "", apiKey := "", baseURL := "" }

/-- An unacknowledged alert. -/
def sampleAlert : Alert :=
  { id := "a1", type := "security", severity := "high",
    title := "Injection detected", message := "msg", userID := "",
    policyID := "", createdAt := 0, ackedAt := none, ackedBy := "" }

/-- Active all-users deny policy `A` with priority 1 and no rules. -/
def denyPolicyA : Policy :=
  { id := "A", name := "A", type := "access", status := "active",
    priority := 1, rules := [],
    targets := { users := [], groups := [], models := [], providers := [],
                 allUsers := true },
    actions := { action := "deny", message := "denied by A" } }

/-- Active all-users deny policy `B` with priority 2 and no rules. -/
def denyPolicyB : Policy :=
  { id := "B", name := "B", type := "access", status := "active",
    priority := 2, rules := [],
    targets := { users := [], groups := [], models := [], providers := [],
                 allUsers := true },
    actions := { action := "deny", message := "denied by B" } }

/-- Evaluation context for the policy examples. -/
def sampleEvalReq : EvaluationRequest :=
  { userID := "u1", model := "gpt-4o", provider := "", tokenCount := 0,
    cost := 0, contentType := "", metadata := [] }

/-- Abstract float formatting; never consulted by the sample evaluations. -/
def dummyFmtFloat : ℚ → String := fun _ => ""

/-- Spending limit of the spec scenario: amount 10.00, alert at 80 percent,
current spend 7.50. -/
def sampleLimit : SpendingLimit :=
  { id := "L1", userID := "u1", limitType := "monthly", limitAmount := 10,
    currentSpend := (15 : ℚ)/2, alertAt := 80 }

/-- Custom pricing making the sample usages cost exactly 1.00 and 0.50. -/
def sampleCustomPricing : List (String × ModelPricing) :=
  [("test-model", ⟨4, 0⟩)]

/-- 250000 prompt tokens at 4.00 per million: cost 1.00. -/
def sampleUsage1 : Usage := ⟨250000, 0, 250000⟩

/-- 125000 prompt tokens at 4.00 per million: cost 0.50. -/
def sampleUsage2 : Usage := ⟨125000, 0, 125000⟩

/-- Recognizes the log-warning emission kind. -/
def isWarningEmission : SpendEmission → Bool
  | .warning _ => true
  | _ => false

/-- The default pricing table with its first two entries swapped: another
possible Go map iteration order of the same map. -/
def reorderedPricingList : List (String × ModelPricing) :=
  match defaultPricingList with
  | e1 :: e2 :: rest => e2 :: e1 :: rest
  | l => l

/-! ## Theorems -/

/-- C10.
For every detection and PII match produced from the message at index `i`
with role `r`, the recorded location string is
`lowercase(r) ++ "_message_" ++ c` where `c` is the single character with
code point `'0' + i`; that character is the decimal digit of `i` exactly
for `0 ≤ i ≤ 9`, and for index 10 the location ends in `:` and does not
contain the decimal string `10` at all. -/
theorem formatLocation_digit_encoding :
    (∀ (i : Nat) (role : String),
      formatLocation i role =
        goToLower role ++ "_message_" ++ String.singleton (Char.ofNat (48 + i))) ∧
    (∀ i : Nat, i ≤ 9 → String.singleton (Char.ofNat (48 + i)) = decRepr i) ∧
    formatLocation 10 "user" = "user_message_:" ∧
    subList (decRepr 10).data (formatLocation 10 "user").data = false := by
  refine ⟨fun i role => rfl, fun i hi => ?_, by decide, by decide⟩
  interval_cases i <;> decide

/-- Witness for `formatLocation_digit_encoding`: at index 3 the location
carries the decimal digit. -/
theorem formatLocation_digit_encoding_witness :
    formatLocation 3 "User" = "user_message_3" := by
  have h1 := formatLocation_digit_encoding.1 3 "User"
  have h2 := formatLocation_digit_encoding.2.1 3 (by decide)
  rw [h1, h2]
  decide

/-- C3 counterexample.
Acknowledging the same alert twice is NOT a no-op: `AckAlert`
(part_008:412-426) overwrites `ackedAt`/`ackedBy` unconditionally whenever
the id matches, so a second call at a later instant changes the state. -/
theorem ackAlert_twice_differs_from_once :
    ackAlert 1 "a1" "u" (ackAlert 0 "a1" "u" [sampleAlert]) ≠
      ackAlert 0 "a1" "u" [sampleAlert] := by decide

/-- C3 (amended).
`ack_alert(id, user_id)` sets `acked_at = now` and `acked_by = user_id` on
EVERY call that finds the id, overwriting any previous acknowledgement (so
the state after two calls equals the state after the second call alone, and
a repeat with the same timestamp and user is a no-op); the call succeeds and
leaves the state unchanged when the id is unknown. -/
theorem ackAlert_overwrite_behavior :
    (∀ (alerts : List Alert) (alertID userID : String) (now : Nat),
      (∀ a ∈ alerts, a.id ≠ alertID) →
      ackAlert now alertID userID alerts = alerts) ∧
    (∀ (alerts : List Alert) (alertID userID : String) (t1 t2 : Nat),
      ackAlert t2 alertID userID (ackAlert t1 alertID userID alerts) =
        ackAlert t2 alertID userID alerts) := by
  constructor
  · intro alerts alertID userID now h
    induction alerts with
    | nil => rfl
    | cons a rest ih =>
      have ha : (a.id == alertID) = false := by
        simpa using h a (List.mem_cons_self a rest)
      simp only [ackAlert, ha, Bool.false_eq_true, if_false, List.cons.injEq, true_and]
      exact ih fun b hb => h b (List.mem_cons_of_mem a hb)
  · intro alerts alertID userID t1 t2
    induction alerts with
    | nil => rfl
    | cons a rest ih =>
      by_cases ha : (a.id == alertID) = true
      · simp only [ackAlert, ha, if_true]
      · simp only [ackAlert, ha, Bool.false_eq_true, if_false, List.cons.injEq, true_and]
        exact ih

/-- Witness for `ackAlert_overwrite_behavior`: acknowledging an unknown id
succeeds and changes nothing. -/
theorem ackAlert_overwrite_behavior_witness :
    ackAlert 5 "zz" "u2" [sampleAlert] = [sampleAlert] :=
  ackAlert_overwrite_behavior.1 [sampleAlert] "zz" "u2" 5 (by decide)

/-- C9.
A masker constructed with `enabled = false` returns every message list
unchanged, with a report having `pii_detected = false`, `pii_count = 0`,
`masked_count = 0` and an empty `pii_types` list. -/
theorem mask_disabled_identity :
    ∀ (table : List (String × PIIMatcher)) (piiTypes : List String)
      (maskChar : String) (preserveDomain : Bool) (messages : List Message),
      mask (newMasker table piiTypes maskChar preserveDomain false) messages =
        (messages,
         { piiDetected := false, piiCount := 0, piiTypes := [], maskedCount := 0 }) := by
  intro table piiTypes maskChar preserveDomain messages
  rfl

/-- C8 counterexample.
A rule value given as the numeric string `"5"` does NOT coerce to 5:
`toFloat` (engine.go:307-320) has no string case and returns 0, so a
`greater_than` comparison of field value 3.0 against rule value `"5"`
matches (3 > 0), while the claimed coercion would reject it (3 > 5 is
false). -/
theorem compareValues_numeric_string_is_zero :
    compareValues dummyFmtFloat (GoValue.float64 3) "greater_than" (GoValue.str "5") = true ∧
    specCompareNumeric (GoValue.float64 3) "greater_than" (GoValue.str "5") = false ∧
    toFloat (GoValue.str "5") = 0 ∧
    specToFloat (GoValue.str "5") = 5 := by
  refine ⟨by decide, by decide, rfl, by decide⟩

/-- C8 (amended).
For `greater_than`/`less_than` rules both the resolved field value and the
rule value are coerced with `toFloat`, which keeps float64/float32/int/int64
values and maps EVERYTHING else — numeric strings included — to 0; the rule
matches iff the coerced field value is strictly greater (resp. less) than
the coerced rule value. -/
theorem numeric_rule_comparison :
    (∀ (fmtFloat : ℚ → String) (i fl : String) (v : GoValue) (c : String)
       (req : EvaluationRequest),
      evaluateRule fmtFloat ⟨i, fl, "greater_than", v, c⟩ req =
        decide (toFloat v < toFloat (resolveField req fl))) ∧
    (∀ (fmtFloat : ℚ → String) (i fl : String) (v : GoValue) (c : String)
       (req : EvaluationRequest),
      evaluateRule fmtFloat ⟨i, fl, "less_than", v, c⟩ req =
        decide (toFloat (resolveField req fl) < toFloat v)) ∧
    (∀ s, toFloat (GoValue.str s) = 0) ∧
    (∀ v : ℚ, toFloat (GoValue.float64 v) = v) ∧
    (∀ n : Int, toFloat (GoValue.int n) = (n : ℚ)) := by
  exact ⟨fun _ _ _ _ _ _ => rfl, fun _ _ _ _ _ _ => rfl,
         fun _ => rfl, fun _ => rfl, fun _ => rfl⟩

/-- C6 (code-bug evidence).
Policy evaluation is NOT deterministic in the policy set: the evaluator
walks `getActivePolicies`, which filters the Go policy map WITHOUT sorting
(engine.go:171-179, despite the comment at engine.go:126), so the visit
order is the unspecified map iteration order.  The two orders of the same
two-policy set are both possible iterations, yield different outputs
(`blockedBy` is whichever deny was visited last), and one of them visits
priorities in descending order. -/
theorem evaluateRequest_order_dependent :
    List.Perm [denyPolicyB, denyPolicyA] [denyPolicyA, denyPolicyB] ∧
    evaluateRequest dummyFmtFloat [] [denyPolicyA, denyPolicyB] sampleEvalReq ≠
      evaluateRequest dummyFmtFloat [] [denyPolicyB, denyPolicyA] sampleEvalReq ∧
    (evaluateRequest dummyFmtFloat [] [denyPolicyA, denyPolicyB] sampleEvalReq).blockedBy = "B" ∧
    (evaluateRequest dummyFmtFloat [] [denyPolicyB, denyPolicyA] sampleEvalReq).blockedBy = "A" ∧
    ((evaluateRequest dummyFmtFloat [] [denyPolicyB, denyPolicyA] sampleEvalReq).evaluations.map
        PolicyEvaluation.policyID) = ["B", "A"] ∧
    denyPolicyA.priority < denyPolicyB.priority := by
  refine ⟨List.Perm.swap denyPolicyA denyPolicyB [], by decide, by decide, by decide,
          by decide, by decide⟩

/-- C4.
A guard response with `allowed = false` can only come from the
injection-block early return (handlers.go:80-85), which happens before the
factory is consulted, before any chat call and before any spending write:
the trace of such a request contains no provider or spending event. -/
theorem guard_blocked_no_provider_no_spend :
    ∀ (det : Detector) (m : Masker) (env : LLMEnv) (freshID : String)
      (req : GuardRequest),
      (guard det m env freshID req).1.allowed = false →
      (guard det m env freshID req).2.filter isProviderOrSpendEvent = [] := by
  intro det m env freshID req h
  by_cases hb : shouldBlock det (analyze det req.messages)
  · simp only [guard, hb, if_true]
    rfl
  · simp only [guard, hb, Bool.false_eq_true, if_false] at h
    exact absurd h (by simp)

/-- Witness for `guard_blocked_no_provider_no_spend` at a concretely blocked
request. -/
theorem guard_blocked_no_provider_no_spend_witness :
    (guard sampleBlockedDetector sampleDisabledMasker sampleGuardEnv "gen"
        sampleBlockedRequest).2.filter isProviderOrSpendEvent = [] :=
  guard_blocked_no_provider_no_spend sampleBlockedDetector sampleDisabledMasker
    sampleGuardEnv "gen" sampleBlockedRequest (by decide)

/-- C1 (code-bug evidence).
A guard request that the injection classifier blocks produces NO audit
record at all: the early return at handlers.go:84 precedes the `logRequest`
call at handlers.go:125, so the claimed single `event_type = request`,
`status = blocked` record is never appended.  Evaluated at a request whose
message carries three library keywords (threat level `critical`), with an
audit logger attached. -/
theorem guard_blocked_appends_no_audit :
    (guard sampleBlockedDetector sampleDisabledMasker sampleGuardEnv "gen"
        sampleBlockedRequest).1.allowed = false ∧
    ((guard sampleBlockedDetector sampleDisabledMasker sampleGuardEnv "gen"
        sampleBlockedRequest).2.countP isRequestAuditEvent) = 0 ∧
    sampleGuardEnv.hasAuditLogger = true ∧
    (analyze sampleBlockedDetector sampleBlockedRequest.messages).threatLevel =
      "critical" := by
  refine ⟨by decide, by decide, rfl, by decide⟩

/-- The accumulator fold of `recordUsage` rewritten as a map and a
flatMap. -/
theorem recordUsage_foldl_characterization
    (f : SpendingLimit → SpendingLimit × List SpendEmission) :
    ∀ (limits : List SpendingLimit) (acc : List SpendingLimit × List SpendEmission),
      limits.foldl (fun acc limit => (acc.1 ++ [(f limit).1], acc.2 ++ (f limit).2)) acc =
        (acc.1 ++ limits.map (fun l => (f l).1),
         acc.2 ++ limits.flatMap (fun l => (f l).2)) := by
  intro limits
  induction limits with
  | nil => intro acc; simp
  | cons l rest ih =>
    intro acc
    simp only [List.foldl_cons, ih, List.map_cons, List.flatMap_cons, List.append_assoc,
      List.cons_append, List.nil_append]

/-- `recordUsage` as a map over the limits plus a flatMap of per-limit
emissions. -/
theorem recordUsage_eq_map_flatMap (order custom : List (String × ModelPricing))
    (userID model : String) (usage : Usage) (limits : List SpendingLimit) :
    recordUsage order custom userID model usage limits =
      (limits.map fun l =>
        (recordUsageStep userID
          (calculateCost order custom model usage.promptTokens usage.completionTokens) l).1,
       limits.flatMap fun l =>
        (recordUsageStep userID
          (calculateCost order custom model usage.promptTokens usage.completionTokens) l).2) := by
  unfold recordUsage
  rw [recordUsage_foldl_characterization]
  simp

/-- C2 counterexample.
At the spec scenario (`limit_amount = 10.00`, `alert_at = 80`,
`current_spend = 7.50`, a usage costing 1.00), the recording crosses the
8.00 threshold, yet `RecordUsage` (spending source, lines 354-406) emits
NO `spending_alert` audit entry and NO Alert object — only a zerolog
warning; and a second recording of 0.50 that stays above the threshold
emits ANOTHER warning rather than nothing. -/
theorem recordUsage_crossing_emits_no_audit_no_alert :
    recordUsage defaultPricingList sampleCustomPricing "u1" "test-model"
        sampleUsage1 [sampleLimit] =
      ([{ sampleLimit with currentSpend := (17 : ℚ)/2 }],
       [SpendEmission.warning "L1"]) ∧
    sampleLimit.currentSpend < sampleLimit.limitAmount * (sampleLimit.alertAt / 100) ∧
    sampleLimit.limitAmount * (sampleLimit.alertAt / 100) ≤ (17 : ℚ)/2 ∧
    recordUsage defaultPricingList sampleCustomPricing "u1" "test-model"
        sampleUsage2 [{ sampleLimit with currentSpend := (17 : ℚ)/2 }] =
      ([{ sampleLimit with currentSpend := 9 }],
       [SpendEmission.warning "L1"]) := by
  have hp : getPricing defaultPricingList sampleCustomPricing "test-model" = ⟨4, 0⟩ := rfl
  have hc1 : calculateCost defaultPricingList sampleCustomPricing "test-model"
      sampleUsage1.promptTokens sampleUsage1.completionTokens = 1 := by
    unfold calculateCost
    rw [hp]
    norm_num [sampleUsage1]
  have hc2 : calculateCost defaultPricingList sampleCustomPricing "test-model"
      sampleUsage2.promptTokens sampleUsage2.completionTokens = 1/2 := by
    unfold calculateCost
    rw [hp]
    norm_num [sampleUsage2]
  have hs1 : recordUsageStep "u1" (1 : ℚ) sampleLimit =
      ({ sampleLimit with currentSpend := (17 : ℚ)/2 }, [SpendEmission.warning "L1"]) := by
    unfold recordUsageStep
    rw [if_pos (show limitMatchesUser sampleLimit "u1" = true from rfl),
        if_pos ⟨by norm_num [sampleLimit], by norm_num [sampleLimit]⟩]
    simp only [sampleLimit, Prod.mk.injEq]
    norm_num
  have hs2 : recordUsageStep "u1" ((1 : ℚ)/2)
        { sampleLimit with currentSpend := (17 : ℚ)/2 } =
      ({ sampleLimit with currentSpend := 9 }, [SpendEmission.warning "L1"]) := by
    unfold recordUsageStep
    rw [if_pos (show limitMatchesUser { sampleLimit with currentSpend := (17 : ℚ)/2 }
          "u1" = true from rfl),
        if_pos ⟨by norm_num [sampleLimit], by norm_num [sampleLimit]⟩]
    simp only [sampleLimit, Prod.mk.injEq]
    norm_num
  refine ⟨?_, by norm_num [sampleLimit], by norm_num [sampleLimit], ?_⟩
  · rw [recordUsage_eq_map_flatMap]
    simp only [List.map_cons, List.map_nil, List.flatMap_cons, List.flatMap_nil,
      List.append_nil, hc1, hs1]
  · rw [recordUsage_eq_map_flatMap]
    simp only [List.map_cons, List.map_nil, List.flatMap_cons, List.flatMap_nil,
      List.append_nil, hc2, hs2]

/-- The per-limit emissions are log warnings only. -/
theorem recordUsageStep_emissions_are_warnings (userID : String) (cost : ℚ)
    (limit : SpendingLimit) :
    ((recordUsageStep userID cost limit).2).all isWarningEmission = true := by
  unfold recordUsageStep
  split_ifs <;> simp [isWarningEmission]

/-- C2 (amended).
`record_usage(user_id, model, usage)` adds the computed cost to every
matching limit (the limit's own user, or a global limit); when
`alert_at > 0` and the UPDATED spend is at or above
`limit_amount * alert_at / 100` it emits a log warning — on every such
recording, with no first-transition test — and it never emits a
`spending_alert` audit entry nor an Alert object of any kind. -/
theorem recordUsage_behavior :
    ∀ (order custom : List (String × ModelPricing)) (userID model : String)
      (usage : Usage) (limits : List SpendingLimit),
      recordUsage order custom userID model usage limits =
        (limits.map fun l =>
          (recordUsageStep userID
            (calculateCost order custom model usage.promptTokens usage.completionTokens) l).1,
         limits.flatMap fun l =>
          (recordUsageStep userID
            (calculateCost order custom model usage.promptTokens usage.completionTokens) l).2) ∧
      ((recordUsage order custom userID model usage limits).2.all isWarningEmission) = true := by
  intro order custom userID model usage limits
  refine ⟨recordUsage_eq_map_flatMap order custom userID model usage limits, ?_⟩
  rw [recordUsage_eq_map_flatMap]
  simp only [List.all_eq_true]
  intro e he
  rw [List.mem_flatMap] at he
  obtain ⟨l, -, he⟩ := he
  have := recordUsageStep_emissions_are_warnings userID
    (calculateCost order custom model usage.promptTokens usage.completionTokens) l
  rw [List.all_eq_true] at this
  exact this e he

/-- With duplicate-free keys, an exact lookup finds exactly the entries of
the list. -/
theorem lookupPricing_eq_some_iff (l : List (String × ModelPricing)) (k : String)
    (hnd : (l.map Prod.fst).Nodup) (p : ModelPricing) :
    lookupPricing l k = some p ↔ (k, p) ∈ l := by
  induction l with
  | nil => simp [lookupPricing]
  | cons kv t ih =>
    obtain ⟨a, b⟩ := kv
    simp only [List.map_cons, List.nodup_cons, List.mem_map] at hnd
    obtain ⟨hk, hnd⟩ := hnd
    by_cases h : a = k
    · have hfind : lookupPricing ((a, b) :: t) k = some b := by
        simp [lookupPricing, List.find?_cons_of_pos, h]
      rw [hfind]
      subst h
      simp only [Option.some.injEq, List.mem_cons, Prod.mk.injEq, true_and]
      constructor
      · intro hbp; exact Or.inl hbp.symm
      · rintro (hbp | hmem)
        · exact hbp.symm
        · exact absurd ⟨(a, p), hmem, rfl⟩ hk
    · have hfind : lookupPricing ((a, b) :: t) k = lookupPricing t k := by
        simp [lookupPricing, List.find?_cons_of_neg, h]
      rw [hfind, ih hnd]
      simp only [List.mem_cons, Prod.mk.injEq]
      constructor
      · exact Or.inr
      · rintro (⟨h1, -⟩ | h2)
        · exact absurd h1.symm h
        · exact h2

/-- Exact lookup misses exactly when no entry has the key. -/
theorem lookupPricing_eq_none_iff (l : List (String × ModelPricing)) (k : String) :
    lookupPricing l k = none ↔ ∀ kv ∈ l, kv.1 ≠ k := by
  simp [lookupPricing, List.find?_eq_none]

/-- Exact lookup is invariant under permutation of a duplicate-free-keyed
list (Go map iteration order does not affect exact map access). -/
theorem lookupPricing_perm {l1 l2 : List (String × ModelPricing)}
    (h : List.Perm l1 l2) (hnd : (l2.map Prod.fst).Nodup) (k : String) :
    lookupPricing l1 k = lookupPricing l2 k := by
  have hnd1 : (l1.map Prod.fst).Nodup := ((h.map Prod.fst).nodup_iff).mpr hnd
  cases h2 : lookupPricing l2 k with
  | some p =>
    rw [lookupPricing_eq_some_iff l1 k hnd1]
    exact h.mem_iff.mpr ((lookupPricing_eq_some_iff l2 k hnd p).mp h2)
  | none =>
    rw [lookupPricing_eq_none_iff]
    intro kv hkv
    exact (lookupPricing_eq_none_iff l2 k).mp h2 kv (h.subset hkv)

/-- The default pricing table has duplicate-free keys. -/
theorem defaultPricingList_keys_nodup : (defaultPricingList.map Prod.fst).Nodup := by
  decide

/-- C7 counterexample.
For model `gpt-4o-mini-2024-07-18` the table keys `gpt-4`, `gpt-4o` and
`gpt-4o-mini` are all prefixes; `GetPricing` (spending source, lines
318-341) returns the FIRST prefix hit in map iteration order, not the
longest one: in the source-literal order it returns the `gpt-4o` pricing
(2.50/10.00) where the longest prefix `gpt-4o-mini` prices 0.15/0.60, and
two valid iteration orders of the same map give different results. -/
theorem getPricing_not_longest :
    getPricing defaultPricingList [] "gpt-4o-mini-2024-07-18" = ⟨(5 : ℚ)/2, 10⟩ ∧
    getPricingSpec [] "gpt-4o-mini-2024-07-18" = ⟨(15 : ℚ)/100, (6 : ℚ)/10⟩ ∧
    getPricing defaultPricingList [] "gpt-4o-mini-2024-07-18" ≠
      getPricingSpec [] "gpt-4o-mini-2024-07-18" ∧
    List.Perm reorderedPricingList defaultPricingList ∧
    getPricing reorderedPricingList [] "gpt-4o-mini-2024-07-18" =
      ⟨(15 : ℚ)/100, (6 : ℚ)/10⟩ ∧
    getPricing reorderedPricingList [] "gpt-4o-mini-2024-07-18" ≠
      getPricing defaultPricingList [] "gpt-4o-mini-2024-07-18" := by
  have h1 : getPricing defaultPricingList [] "gpt-4o-mini-2024-07-18" =
      ⟨(5 : ℚ)/2, 10⟩ := rfl
  have h2 : getPricingSpec [] "gpt-4o-mini-2024-07-18" =
      ⟨(15 : ℚ)/100, (6 : ℚ)/10⟩ := rfl
  have h3 : getPricing reorderedPricingList [] "gpt-4o-mini-2024-07-18" =
      ⟨(15 : ℚ)/100, (6 : ℚ)/10⟩ := rfl
  refine ⟨h1, h2, ?_, ?_, h3, ?_⟩
  · rw [h1, h2]
    intro h
    injection h with ha hb
    exact absurd ha (by norm_num)
  · unfold reorderedPricingList defaultPricingList
    exact List.Perm.swap _ _ _
  · rw [h1, h3]
    intro h
    injection h with ha hb
    exact absurd ha (by norm_num)

/-- C7 (amended).
Pricing is resolved as: custom override first, then the exact default-table
entry, then SOME default-table entry whose key is a prefix of the model
name — the first hit in the unspecified map iteration order, not
necessarily the longest prefix — and otherwise the fallback (1.00, 3.00);
the cost is `prompt * input + completion * output`, scaled by 1e-6. -/
theorem getPricing_resolution (order custom : List (String × ModelPricing))
    (model : String) (hperm : List.Perm order defaultPricingList) :
    (∀ p, lookupPricing custom model = some p → getPricing order custom model = p) ∧
    (lookupPricing custom model = none →
      ∀ p, lookupPricing defaultPricingList model = some p →
        getPricing order custom model = p) ∧
    (lookupPricing custom model = none →
      lookupPricing defaultPricingList model = none →
      ((∃ kv ∈ defaultPricingList, goHasPre model kv.1 = true ∧
          getPricing order custom model = kv.2) ∨
       ((∀ kv ∈ defaultPricingList, goHasPre model kv.1 = false) ∧
        getPricing order custom model = defaultFallback))) ∧
    (∀ promptTokens completionTokens : Nat,
      calculateCost order custom model promptTokens completionTokens =
        (promptTokens : ℚ) * (getPricing order custom model).inputPricePerMillion
            / 1000000 +
          (completionTokens : ℚ) * (getPricing order custom model).outputPricePerMillion
            / 1000000) := by
  have hord : lookupPricing order model = lookupPricing defaultPricingList model :=
    lookupPricing_perm hperm defaultPricingList_keys_nodup model
  refine ⟨?_, ?_, ?_, fun p c => rfl⟩
  · intro p hp
    unfold getPricing
    rw [hp]
  · intro hc p hp
    unfold getPricing
    rw [hc, hord, hp]
  · intro hc hd
    unfold getPricing
    rw [hc, hord, hd]
    cases hfind : order.find? (fun kv => goHasPre model kv.1) with
    | some kv =>
      left
      exact ⟨kv, hperm.subset (List.mem_of_find?_eq_some hfind),
        by simpa using List.find?_some hfind, rfl⟩
    | none =>
      right
      refine ⟨?_, rfl⟩
      intro kv hkv
      have := List.find?_eq_none.mp hfind kv (hperm.mem_iff.mpr hkv)
      simpa using this

/-- Witness for `getPricing_resolution`: exact hit for `gpt-4o` under the
source-literal iteration order. -/
theorem getPricing_resolution_witness :
    getPricing defaultPricingList [] "gpt-4o" = ⟨(5 : ℚ)/2, 10⟩ :=
  (getPricing_resolution defaultPricingList [] "gpt-4o"
    (List.Perm.refl _)).2.1 rfl ⟨(5 : ℚ)/2, 10⟩ rfl

/-- The detector's running-max step is the binary max. -/
theorem maxStep_eq (m c : ℚ) : (if m < c then c else m) = max m c := by
  rcases le_or_lt c m with h | h
  · rw [if_neg (not_lt.mpr h), max_eq_left h]
  · rw [if_pos h, max_eq_right h.le]

/-- `goMaxConfidence` as a fold of the binary max. -/
theorem goMaxConfidence_eq_foldl_max (ds : List Detection) :
    goMaxConfidence ds = ds.foldl (fun m d => max m d.confidence) 0 := by
  unfold goMaxConfidence
  congr 1
  funext m d
  exact maxStep_eq m d.confidence

/-- The accumulator is below the max fold. -/
theorem foldl_max_acc_le (ds : List Detection) :
    ∀ a : ℚ, a ≤ ds.foldl (fun m d => max m d.confidence) a := by
  induction ds with
  | nil => intro a; simp
  | cons d t ih =>
    intro a
    simp only [List.foldl_cons]
    exact le_trans (le_max_left a d.confidence) (ih _)

/-- Every member confidence is below the max fold. -/
theorem mem_le_foldl_max (ds : List Detection) :
    ∀ (a : ℚ) (d : Detection), d ∈ ds →
      d.confidence ≤ ds.foldl (fun m d => max m d.confidence) a := by
  induction ds with
  | nil => intro a d hd; simp at hd
  | cons e t ih =>
    intro a d hd
    simp only [List.foldl_cons]
    rcases List.mem_cons.mp hd with h | h
    · subst h
      exact le_trans (le_max_right a d.confidence) (foldl_max_acc_le t _)
    · exact ih _ d h

/-- The max fold is the accumulator or some member confidence. -/
theorem foldl_max_eq_acc_or_mem (ds : List Detection) :
    ∀ a : ℚ, ds.foldl (fun m d => max m d.confidence) a = a ∨
      ∃ d ∈ ds, ds.foldl (fun m d => max m d.confidence) a = d.confidence := by
  induction ds with
  | nil => intro a; exact Or.inl rfl
  | cons e t ih =>
    intro a
    simp only [List.foldl_cons]
    rcases ih (max a e.confidence) with h | ⟨d, hd, h⟩
    · rcases le_or_lt e.confidence a with hle | hlt
      · left
        rw [h, max_eq_left hle]
      · right
        exact ⟨e, List.mem_cons_self e t, by rw [h, max_eq_right hlt.le]⟩
    · right
      exact ⟨d, List.mem_cons_of_mem e hd, h⟩

/-- For a positive bound, the running maximum reaches the bound iff some
detection does. -/
theorem goMaxConfidence_ge_iff (ds : List Detection) (c : ℚ) (hc : 0 < c) :
    c ≤ goMaxConfidence ds ↔ ∃ d ∈ ds, c ≤ d.confidence := by
  rw [goMaxConfidence_eq_foldl_max]
  constructor
  · intro h
    rcases foldl_max_eq_acc_or_mem ds 0 with h0 | ⟨d, hd, heq⟩
    · rw [h0] at h
      exact absurd (lt_of_lt_of_le hc h) (lt_irrefl 0)
    · refine ⟨d, hd, ?_⟩
      rw [heq] at h
      exact h
  · rintro ⟨d, hd, hcd⟩
    exact le_trans hcd (mem_le_foldl_max ds 0 d hd)

/-- `hasCriticalType` as the existence of a detection with one of the three
critical types. -/
theorem hasCriticalType_iff (ds : List Detection) :
    hasCriticalType ds = true ↔
      ∃ d ∈ ds, d.type = "jailbreak_attempt" ∨ d.type = "data_exfiltration" ∨
        d.type = "delimiter_injection" := by
  unfold hasCriticalType criticalTypes
  simp [List.any_eq_true]

/-- `calculateThreatLevel` (source) computes the spec-side threat-level
function. -/
theorem calculateThreatLevel_eq_spec (D : List Detection) :
    calculateThreatLevel D = specThreatLevel D := by
  unfold calculateThreatLevel specThreatLevel
  by_cases h0 : D = []
  · subst h0
    simp
  · have hlen : ¬(D.length = 0) := by simpa [List.length_eq_zero] using h0
    rw [if_neg hlen, if_neg h0]
    have hcond : (hasCriticalType D || decide (3 ≤ D.length)) = true ↔
        ((∃ d ∈ D, d.type = "jailbreak_attempt" ∨ d.type = "data_exfiltration" ∨
          d.type = "delimiter_injection") ∨ 3 ≤ D.length) := by
      simp [hasCriticalType_iff, Bool.or_eq_true, decide_eq_true_eq]
    by_cases hcrit : (∃ d ∈ D, d.type = "jailbreak_attempt" ∨
        d.type = "data_exfiltration" ∨ d.type = "delimiter_injection") ∨ 3 ≤ D.length
    · rw [if_pos (hcond.mpr hcrit), if_pos hcrit]
    · rw [if_neg (fun hb => hcrit (hcond.mp hb)), if_neg hcrit]
      have hhigh := goMaxConfidence_ge_iff D ((85 : ℚ)/100) (by norm_num)
      by_cases hh : ∃ d ∈ D, (85 : ℚ)/100 ≤ d.confidence
      · rw [if_pos (hhigh.mpr hh), if_pos hh]
      · rw [if_neg (fun hb => hh (hhigh.mp hb)), if_neg hh]
        have hmed := goMaxConfidence_ge_iff D ((7 : ℚ)/10) (by norm_num)
        by_cases hm : ∃ d ∈ D, (7 : ℚ)/10 ≤ d.confidence
        · rw [if_pos (hmed.mpr hm), if_pos hm]
        · rw [if_neg (fun hb => hm (hmed.mp hb)), if_neg hm]

/-- C5.
`analyze(messages)` assigns the report's threat level from its detection
set D exactly as the spec states: `none` if D is empty; `critical` if some
detection has type jailbreak_attempt, data_exfiltration or
delimiter_injection, or if D has at least 3 elements; otherwise `high` if
some detection has confidence at least 0.85 (equivalently, the maximum
does); otherwise `medium` at 0.70; otherwise `low`. -/
theorem analyze_threatLevel_eq_spec :
    ∀ (d : Detector) (messages : List Message),
      (analyze d messages).threatLevel =
        specThreatLevel (analyze d messages).detections := by
  intro d messages
  cases he : d.enabled with
  | false =>
    simp [analyze, he, specThreatLevel]
  | true =>
    simp only [analyze, he, Bool.not_true, Bool.false_eq_true, if_false]
    exact calculateThreatLevel_eq_spec _

end GoGuard
